import Mathlib

/-!
Shallow embedding of the simple-visual-novel engine core
(types.ts, state.ts, engine.ts, promise.ts, effects.ts, renderer.ts).

Object references of the TypeScript source are modelled arena-style:
characters and scenes live in a `World` and cross-references are indices
(`CharId`, `SceneRef`).  JS strings are `String` (element text content is
`List Char` where code appends per character), JS numbers that only pass
through are `ℚ`, `undefined`/`null` are `Option`, thrown exceptions are
`Except String`.  JS truthiness tests on `string | null` values are embedded
explicitly: both `null` and `""` are falsy.
-/

namespace VN

/-- A coordinate/dimension axis value: a JS number (0.0–1.0 normalized,
modelled as a rational) or a CSS string such as "100px" or "30%". -/
inductive CoordVal where
  | num (value : ℚ)
  | str (value : String)
deriving DecidableEq

/-- `Position` from types.ts: a named position or a coordinate object
with optional `x`/`y` axes. -/
inductive Position where
  | left
  | center
  | right
  | farLeft
  | farRight
  | coords (x : Option CoordVal) (y : Option CoordVal)
deriving DecidableEq

/-- `Size` from types.ts: optional width/height. -/
structure Size where
  width : Option CoordVal := none
  height : Option CoordVal := none
deriving DecidableEq

/-- The dialogue text effect union "fade" | "typewriter". -/
inductive TextEffect where
  | fade
  | typewriter
deriving DecidableEq

/-- `DialogueOptions` from types.ts. -/
structure DialogueOptions where
  effect : Option TextEffect := none
deriving DecidableEq

/-- `SceneActionType` from types.ts:
"dialogue" | "show" | "hide" | "setImage".  (`show'` carries a prime
because `show` is a Lean keyword.) -/
inductive SceneActionType where
  | dialogue
  | show'
  | hide
  | setImage
deriving DecidableEq

/-- Handle of a `Character` stored in the `World` (arena index standing
for a JS object reference). -/
abbrev CharId := Nat

/-- Handle of a `Scene` stored in the `World`. -/
abbrev SceneRef := Nat

/-- `SceneAction` from types.ts: a record whose fields other than `type`
are all optional; `character` is an object reference (here a handle). -/
structure SceneAction where
  type : SceneActionType
  character : Option CharId := none
  text : Option String := none
  options : Option DialogueOptions := none
  position : Option Position := none
  size : Option Size := none
  image : Option String := none
deriving DecidableEq

/-- `SceneOptions` from types.ts. -/
structure SceneOptions where
  background : Option String := none
deriving DecidableEq

/-- The data of a `Character` object: name, optional image, optional stored
position/size, and the nullable back-reference `_currentScene`. -/
structure Character where
  name : String
  image : Option String := none
  position : Option Position := none
  size : Option Size := none
  currentScene : Option SceneRef := none
deriving DecidableEq

/-- The data of a `Scene` object: id, options, ordered action log and the
member-character set (a JS `Set`, modelled as an insertion-ordered
duplicate-free list used only for membership). -/
structure Scene where
  id : String
  options : SceneOptions := {}
  actions : List SceneAction := []
  characters : List CharId := []
deriving DecidableEq

/-- The object arena: all characters and scenes, addressed by handle. -/
structure World where
  chars : List Character := []
  scenes : List Scene := []
deriving DecidableEq

/-- Association-list read (JS `Map.get` / object indexing). -/
def assocGet {α β : Type} [DecidableEq α] (m : List (α × β)) (k : α) : Option β :=
  match m with
  | [] => none
  | (k2, v) :: rest => if k2 = k then some v else assocGet rest k

/-- Association-list write with JS `Map.set` / object-assignment semantics:
overwrite the existing binding in place, else append. -/
def assocSet {α β : Type} [DecidableEq α] (m : List (α × β)) (k : α) (v : β) :
    List (α × β) :=
  match m with
  | [] => [(k, v)]
  | (k2, v2) :: rest =>
    if k2 = k then (k, v) :: rest else (k2, v2) :: assocSet rest k v

namespace World

/-- Dereference a character handle. -/
def getChar (w : World) (c : CharId) : Option Character :=
  w.chars.get? c

/-- Dereference a scene handle. -/
def getScene (w : World) (r : SceneRef) : Option Scene :=
  w.scenes.get? r

/-- Overwrite a character slot (mutation of the referenced object). -/
def setChar (w : World) (c : CharId) (ch : Character) : World :=
  { w with chars := w.chars.set c ch }

/-- Overwrite a scene slot (mutation of the referenced object). -/
def setScene (w : World) (r : SceneRef) (sc : Scene) : World :=
  { w with scenes := w.scenes.set r sc }

end World

/-- `Scene.addAction`: unconditional append to the action log. -/
def Scene.addAction (s : Scene) (a : SceneAction) : Scene :=
  { s with actions := s.actions ++ [a] }

/-- `scene.addAction(action)` through a handle; a dangling handle (which
cannot arise from the source API) leaves the world unchanged. -/
def World.addAction (w : World) (r : SceneRef) (a : SceneAction) : World :=
  match w.getScene r with
  | none => w
  | some sc => w.setScene r (sc.addAction a)

/-- Options argument of `Character.show` and `Scene.add`. -/
structure ShowOptions where
  position : Option Position := none
  size : Option Size := none
deriving DecidableEq

/-- `Character.say`: throws when `_currentScene` is null (objects are
truthy, so the JS guard `!this._currentScene` is exactly `Option.isNone`),
else appends a dialogue action to the current scene. -/
def Character.say (w : World) (c : CharId) (text : String)
    (options : Option DialogueOptions) : Except String World :=
  match w.getChar c with
  | none => .ok w
  | some ch =>
    match ch.currentScene with
    | none =>
      .error ("Character \"" ++ ch.name ++ "\" must be added to a scene before speaking")
    | some sc =>
      .ok (w.addAction sc
        { type := .dialogue, character := some c, text := some text, options := options })

/-- `Character.show` (primed: `show` is a Lean keyword): throws when
unattached, else appends a show action with `options?.position ?? stored`
and `options?.size ?? stored`. -/
def Character.show' (w : World) (c : CharId) (options : Option ShowOptions) :
    Except String World :=
  match w.getChar c with
  | none => .ok w
  | some ch =>
    match ch.currentScene with
    | none =>
      .error ("Character \"" ++ ch.name ++ "\" must be added to a scene before showing")
    | some sc =>
      .ok (w.addAction sc
        { type := .show'
          character := some c
          position := (options.bind ShowOptions.position) <|> ch.position
          size := (options.bind ShowOptions.size) <|> ch.size })

/-- `Character.hide`: throws when unattached, else appends a hide action. -/
def Character.hide (w : World) (c : CharId) : Except String World :=
  match w.getChar c with
  | none => .ok w
  | some ch =>
    match ch.currentScene with
    | none =>
      .error ("Character \"" ++ ch.name ++ "\" must be added to a scene before hiding")
    | some sc =>
      .ok (w.addAction sc { type := .hide, character := some c })

/-- The `Character.image` setter (types.ts of the current revision):
always stores the new value; additionally queues a `setImage` action when
a current scene is bound and the value is defined. -/
def Character.setImage (w : World) (c : CharId) (value : Option String) : World :=
  match w.getChar c with
  | none => w
  | some ch =>
    let w1 := w.setChar c { ch with image := value }
    match ch.currentScene, value with
    | some sc, some v =>
      w1.addAction sc { type := .setImage, character := some c, image := some v }
    | _, _ => w1

/-- `Scene.add`: registers the character in the member set, binds the
character's `_currentScene` to this scene, then appends a show action with
the `options?.position ?? character.position` fallbacks. -/
def Scene.add (w : World) (r : SceneRef) (c : CharId) (options : Option ShowOptions) :
    World :=
  match w.getScene r, w.getChar c with
  | some sc, some ch =>
    let w1 := w.setScene r
      { sc with characters :=
          if c ∈ sc.characters then sc.characters else sc.characters ++ [c] }
    let w2 := w1.setChar c { ch with currentScene := some r }
    w2.addAction r
      { type := .show'
        character := some c
        position := (options.bind ShowOptions.position) <|> ch.position
        size := (options.bind ShowOptions.size) <|> ch.size }
  | _, _ => w

/-- Runs a throwing operation the way a caller that catches the exception
observes it: on error the receiver world is unchanged (the `throw` in the
source precedes every mutation) and the message is reported. -/
def runCaught (w : World) (r : Except String World) : World × Option String :=
  match r with
  | .ok w2 => (w2, none)
  | .error e => (w, some e)

/-- `Script`: ordered scene list plus the id → scene `Map`. -/
structure Script where
  _scenes : List SceneRef := []
  sceneMap : List (String × SceneRef) := []
deriving DecidableEq

namespace Script

/-- `Script.addScene`: throws if the id is already in the map (checked
before any mutation), else appends to both the ordered list and the map. -/
def addScene (w : World) (s : Script) (r : SceneRef) : Except String Script :=
  match w.getScene r with
  | none => .ok s
  | some sc =>
    if (assocGet s.sceneMap sc.id).isSome then
      .error ("Scene with id \"" ++ sc.id ++ "\" already exists")
    else
      .ok { _scenes := s._scenes ++ [r], sceneMap := assocSet s.sceneMap sc.id r }

/-- `addScene` as observed by a caller that catches the exception: the
script after the call plus the error message, if any. -/
def addSceneCaught (w : World) (s : Script) (r : SceneRef) : Script × Option String :=
  match addScene w s r with
  | .ok s2 => (s2, none)
  | .error e => (s, some e)

/-- `Script.getScene`: map lookup, `undefined` when absent. -/
def getScene (s : Script) (id : String) : Option SceneRef :=
  assocGet s.sceneMap id

/-- `Script.getSceneByIndex`: list indexing, `undefined` out of bounds. -/
def getSceneByIndex (s : Script) (index : Nat) : Option SceneRef :=
  s._scenes.get? index

/-- `Script.getSceneIndex`: `findIndex` over the ordered list comparing
resolved scene ids, `-1` when not found. -/
def getSceneIndex (w : World) (s : Script) (id : String) : Int :=
  match s._scenes.findIdx? (fun r => ((w.getScene r).map Scene.id) == some id) with
  | some i => (i : Int)
  | none => -1

end Script

/-- `GameState` from types.ts.  Variable values are `any` in the source and
never inspected by the engine; they are modelled as opaque strings. -/
structure GameState where
  variables' : List (String × String) := []
  _currentSceneId : Option String := none
  sceneHistory : List String := []
deriving DecidableEq

namespace StateManager

/-- `new StateManager(initialSceneId = null)`. -/
def create (initialSceneId : Option String := none) : GameState :=
  { variables' := [], _currentSceneId := initialSceneId, sceneHistory := [] }

/-- `StateManager.setVariable`. -/
def setVariable (st : GameState) (key value : String) : GameState :=
  { st with variables' := assocSet st.variables' key value }

/-- `StateManager.getVariable`. -/
def getVariable (st : GameState) (key : String) : Option String :=
  assocGet st.variables' key

/-- The `currentSceneId` setter: `if (this._state._currentSceneId)` pushes
the previous id onto history — a JS truthiness test, so a previous id of
`null` or `""` is not pushed — then overwrites the id. -/
def setCurrentSceneId (st : GameState) (sceneId : Option String) : GameState :=
  let pushed :=
    match st._currentSceneId with
    | some prev => if prev = "" then st.sceneHistory else st.sceneHistory ++ [prev]
    | none => st.sceneHistory
  { st with sceneHistory := pushed, _currentSceneId := sceneId }

/-- `StateManager.clearHistory`. -/
def clearHistory (st : GameState) : GameState :=
  { st with sceneHistory := [] }

end StateManager

/-- `EngineEventType` from engine.ts. -/
inductive EngineEventType where
  | sceneChange
  | variableChange
deriving DecidableEq

/-- An `EngineEvent` (`{type, data}`) as a tagged value. -/
inductive EngineEvent where
  | sceneChange (sceneId : String)
  | variableChange (key : String) (value : String)
deriving DecidableEq

/-- The `VNEngine` object.  Listener functions are opaque and identified by
number; `emitted` records every event dispatched by `emitEvent`, in order
(dispatch is synchronous, so this is also delivery order).  The renderer,
when present, is an opaque handle — its own state is modelled separately in
`RState`. -/
structure Engine where
  world : World
  _script : Script
  _stateManager : GameState
  listeners : List (EngineEventType × List Nat) := []
  _renderer : Option Nat := none
  emitted : List EngineEvent := []
deriving DecidableEq

namespace Engine

/-- `emitEvent`: synchronously dispatches to the registered listeners;
observationally, the event is appended to the emission log. -/
def emitEvent (e : Engine) (ev : EngineEvent) : Engine :=
  { e with emitted := e.emitted ++ [ev] }

/-- `on` (primed: `on` is a reserved token): creates the per-type `Set` on demand and adds the listener
(reference-deduplicated, insertion-ordered). -/
def on' (e : Engine) (t : EngineEventType) (l : Nat) : Engine :=
  match assocGet e.listeners t with
  | none => { e with listeners := assocSet e.listeners t [l] }
  | some set =>
    { e with listeners := assocSet e.listeners t (if l ∈ set then set else set ++ [l]) }

/-- `off`: removes the listener when the type has a set; otherwise no-op. -/
def off (e : Engine) (t : EngineEventType) (l : Nat) : Engine :=
  match assocGet e.listeners t with
  | none => e
  | some set =>
    { e with listeners := assocSet e.listeners t (set.filter (fun x => x != l)) }

/-- The `currentScene` getter: `if (!sceneId) return undefined` is a JS
truthiness test (`null` and `""` alike yield `undefined`), else a map
lookup. -/
def currentScene (e : Engine) : Option SceneRef :=
  match e._stateManager._currentSceneId with
  | none => none
  | some id => if id = "" then none else e._script.getScene id

/-- `currentScene` resolved to the scene object. -/
def currentSceneData (e : Engine) : Option Scene :=
  (e.currentScene).bind e.world.getScene

/-- `jumpTo`: throws `SceneNotFound` when the id is absent, else updates the
state manager (pushing history per the setter) and emits `sceneChange`. -/
def jumpTo (e : Engine) (sceneId : String) : Except String Engine :=
  match e._script.getScene sceneId with
  | none => .error ("Scene with id \"" ++ sceneId ++ "\" not found")
  | some _ =>
    .ok (({ e with
      _stateManager := StateManager.setCurrentSceneId e._stateManager (some sceneId) }
      ).emitEvent (.sceneChange sceneId))

/-- `next()`: `if (!currentSceneId) return false` (truthiness: `null` or
`""`); `-1` from `getSceneIndex` returns false; a missing scene at
index + 1 returns false; otherwise delegates to `jumpTo` on the next
scene's id and returns true. -/
def next (e : Engine) : Except String (Engine × Bool) :=
  match e._stateManager._currentSceneId with
  | none => .ok (e, false)
  | some cid =>
    if cid = "" then .ok (e, false)
    else
      let currentIndex := Script.getSceneIndex e.world e._script cid
      if currentIndex = -1 then .ok (e, false)
      else
        match e._script.getSceneByIndex (currentIndex.toNat + 1) with
        | none => .ok (e, false)
        | some nextRef =>
          match e.world.getScene nextRef with
          | none => .ok (e, false)
          | some nextScene => (e.jumpTo nextScene.id).map (fun e2 => (e2, true))

/-- `setVariable`: delegates to the state manager and emits
`variableChange {key, value}`. -/
def setVariable (e : Engine) (key value : String) : Engine :=
  ({ e with _stateManager := StateManager.setVariable e._stateManager key value }
    ).emitEvent (.variableChange key value)

/-- `getVariable`: pure delegation to the state manager. -/
def getVariable (e : Engine) (key : String) : Option String :=
  StateManager.getVariable e._stateManager key

/-- The renderer-independent part of an engine: script (with its world),
game state and emission log.  Listener registry and renderer handle are
excluded. -/
def core (e : Engine) : World × Script × GameState × List EngineEvent :=
  (e.world, e._script, e._stateManager, e.emitted)

end Engine

/-- The id of the synthetic listener the `DOMRenderer` registers on
`sceneChange` during engine construction in a browser environment. -/
def rendererListener : Nat := 0

/-- The `VNEngine` constructor: validates the start scene (throwing
`SceneNotFound` otherwise), initializes the state manager with it, creates
the DOM renderer only when `document` exists (which registers the
renderer's `sceneChange` listener), then emits the initial `sceneChange`. -/
def VNEngine.create (w : World) (script : Script) (startScene : String)
    (hasDocument : Bool) : Except String Engine :=
  match script.getScene startScene with
  | none => .error ("Scene with id \"" ++ startScene ++ "\" not found")
  | some _ =>
    let e : Engine :=
      { world := w
        _script := script
        _stateManager := StateManager.create (some startScene)
        listeners := []
        _renderer := none
        emitted := [] }
    let e :=
      if hasDocument then
        ({ e with _renderer := some 0 }).on' .sceneChange rendererListener
      else e
    .ok (e.emitEvent (.sceneChange startScene))

/-- How a JS promise can settle.  `resolved none` is resolution with
`undefined` (the void case). -/
inductive CPOutcome (α : Type) where
  | resolved (value : Option α)
  | rejected (reason : String)
deriving DecidableEq

/-- The observable state of a `CancellablePromise`: the `_cancelled` flag,
how many times the `onCancel` cleanup callback has run, and the settled
outcome of the underlying promise, if any. -/
structure CPState (α : Type) where
  cancelled : Bool := false
  cleanupRuns : Nat := 0
  settled : Option (CPOutcome α) := none
deriving DecidableEq

namespace CPState

/-- Calling the captured `resolve`/`reject`: a JS promise settles at most
once — only the first settlement takes effect. -/
def settle {α : Type} (s : CPState α) (o : CPOutcome α) : CPState α :=
  match s.settled with
  | some _ => s
  | none => { s with settled := some o }

/-- `CancellablePromise.cancel(value?)`: early-return if `_cancelled`;
else set the flag, invoke `onCancel` (counted by `cleanupRuns`), then
resolve with `value ?? undefined`. -/
def cancel {α : Type} (s : CPState α) (value : Option α) : CPState α :=
  if s.cancelled then s
  else
    ({ s with cancelled := true, cleanupRuns := s.cleanupRuns + 1 }).settle
      (.resolved value)

end CPState

/-- The state of one running `typewriter(element, text, options)` call:
the element's text content so far, the closure's `index`, whether the
interval is still scheduled, how many times `options.onComplete` has run,
and the `CancellablePromise` it returned (`α = Unit`: a void promise). -/
structure TwState where
  displayed : List Char := []
  index : Nat := 0
  intervalActive : Bool := true
  onCompleteRuns : Nat := 0
  cp : CPState Unit := {}
deriving DecidableEq

namespace TwState

/-- One interval firing of the typewriter: nothing happens if the interval
was cleared; the tick returns early if the promise is cancelled; below the
text length it reveals one character; otherwise it clears the interval,
calls `onComplete` and resolves the promise (with `undefined`). -/
def tick (text : List Char) (s : TwState) : TwState :=
  if s.intervalActive = false then s
  else if s.cp.cancelled then s
  else if s.index < text.length then
    { s with displayed := s.displayed ++ [text.getD s.index ' '], index := s.index + 1 }
  else
    { s with intervalActive := false
             onCompleteRuns := s.onCompleteRuns + 1
             cp := s.cp.settle (.resolved none) }

/-- `cancel()` on the typewriter's promise.  `CancellablePromise.cancel`
early-returns when already cancelled; otherwise its `onCancel` closure
clears the interval, jumps the element to the full text and calls
`onComplete`, and the promise is resolved (`CPState.cancel` accounts for
the flag, the cleanup run and the resolution). -/
def cancel (text : List Char) (s : TwState) : TwState :=
  if s.cp.cancelled then s
  else
    { s with intervalActive := false
             displayed := text
             onCompleteRuns := s.onCompleteRuns + 1
             cp := s.cp.cancel none }

/-- External events a running typewriter can experience: an interval
firing, or a `cancel()` call from another execution context. -/
inductive Event where
  | tick
  | cancel
deriving DecidableEq

/-- Apply one event. -/
def step (text : List Char) (s : TwState) : Event → TwState
  | .tick => s.tick text
  | .cancel => s.cancel text

/-- Run a sequence of events in the single-threaded scheduler order. -/
def run (text : List Char) (s : TwState) (evs : List Event) : TwState :=
  evs.foldl (step text) s

end TwState

/-- `RendererOptions` from renderer.ts (the typewriter speed only scales
real time and is irrelevant to the event-level model). -/
structure RendererOptions where
  assetsDirectory : Option String := none
deriving DecidableEq

/-- `resolveAssetPath`: absolute paths (scheme or root-relative) pass
through; `if (!this.options.assetsDirectory)` is a truthiness test, so an
unset or empty directory passes the path through; else one trailing slash
is stripped from the directory and the two are joined. -/
def resolveAssetPath (opts : RendererOptions) (path : String) : String :=
  if path.startsWith ("http://") || path.startsWith ("https://") || path.startsWith ("/")
  then path
  else
    match opts.assetsDirectory with
    | none => path
    | some dir =>
      if dir = "" then path
      else (if dir.endsWith ("/") then dir.dropRight 1 else dir) ++ "/" ++ path

/-- An in-flight dialogue animation held in `this.currentAnimation`: the
typewriter (with the full text its cleanup jumps to) or the dialogue fade.
Both wrap a void `CancellablePromise`. -/
inductive Anim where
  | typewriter (full : List Char) (cp : CPState Unit)
  | fade (cp : CPState Unit)
deriving DecidableEq

/-- The promise behind an animation. -/
def Anim.cp : Anim → CPState Unit
  | .typewriter _ cp => cp
  | .fade cp => cp

/-- The `DOMRenderer`'s mutable state: its engine, the action cursor, the
`isProcessing` flag, the in-flight animation handle, and the DOM content it
manages (speaker name, dialogue text and opacity, background, the character
elements it created, which are visible, and their image overrides). -/
structure RState where
  engine : Engine
  options : RendererOptions := {}
  currentActionIndex : Nat := 0
  isProcessing : Bool := false
  currentAnimation : Option Anim := none
  speakerName : List Char := []
  dialogueText : List Char := []
  dialogueOpacity : String := ""
  background : Option String := none
  charElements : List CharId := []
  visibleChars : List CharId := []
  charImages : List (CharId × String) := []
deriving DecidableEq

/-- The text content assigned to the speaker-name element:
`character.name`. -/
def charNameOf (w : World) (c : CharId) : List Char :=
  match w.getChar c with
  | some ch => ch.name.data
  | none => []

/-- `showCharacter`: creates the character's element on first use and makes
it visible (positioning/sizing CSS and the decorative fade-in act only on
style properties outside this model). -/
def showCharacter (s : RState) (c : CharId) : RState :=
  let s :=
    if c ∈ s.charElements then s
    else { s with charElements := s.charElements ++ [c] }
  if c ∈ s.visibleChars then s
  else { s with visibleChars := s.visibleChars ++ [c] }

/-- `hideCharacter`: hides the element if one exists. -/
def hideCharacter (s : RState) (c : CharId) : RState :=
  if c ∈ s.charElements
  then { s with visibleChars := s.visibleChars.filter (fun x => x != c) }
  else s

/-- `setCharacterImage`: updates the element's img source if the element
exists. -/
def setCharacterImage (s : RState) (c : CharId) (image : String) : RState :=
  if c ∈ s.charElements
  then { s with charImages := assocSet s.charImages c (resolveAssetPath s.options image) }
  else s

/-- `displayDialogue`: sets the speaker name, then renders the text per the
effect.  The typewriter and fade paths start a `CancellablePromise` and
`await` it — the returned flag records that the call suspended with the
animation in flight.  The no-effect path completes synchronously. -/
def displayDialogue (s : RState) (c : CharId) (text : List Char)
    (options : Option DialogueOptions) : RState × Bool :=
  let s := { s with speakerName := charNameOf s.engine.world c }
  match options.bind DialogueOptions.effect with
  | some .typewriter =>
    ({ s with dialogueText := []
              currentAnimation := some (.typewriter text {}) }, true)
  | some .fade =>
    ({ s with dialogueText := text
              dialogueOpacity := "1"
              currentAnimation := some (.fade {}) }, true)
  | none =>
    ({ s with dialogueText := text, dialogueOpacity := "1" }, false)

mutual

/-- `nextAction`: bumps the action cursor; at the end of the log asks the
engine for the next scene (whose `sceneChange` event synchronously re-runs
`renderCurrentScene` through the listener) or, with no next scene, clears
the dialogue display; otherwise continues with `processActions`.  The
returned flag propagates "an awaited animation is still in flight".
Recursion is measured by explicit fuel; exhausted fuel returns the state
unchanged. -/
def nextAction (fuel : Nat) (s : RState) : RState × Bool :=
  match fuel with
  | 0 => (s, false)
  | fuel + 1 =>
    match s.engine.currentSceneData with
    | none => (s, false)
    | some scene =>
      let s1 := { s with currentActionIndex := s.currentActionIndex + 1 }
      if scene.actions.length ≤ s1.currentActionIndex then
        match s1.engine.next with
        | .ok (e2, true) => renderCurrentScene fuel { s1 with engine := e2 }
        | .ok (e2, false) =>
          ({ s1 with engine := e2, dialogueText := [], speakerName := [] }, false)
        | .error _ => (s1, false)
      else processActions fuel s1

/-- `processActions`: returns early past the end of the log; else sets
`isProcessing`, processes the action at the cursor, and clears
`isProcessing` — unless the action suspended on an animation, in which case
the clearing continuation only runs when the animation settles. -/
def processActions (fuel : Nat) (s : RState) : RState × Bool :=
  match fuel with
  | 0 => (s, false)
  | fuel + 1 =>
    match s.engine.currentSceneData with
    | none => (s, false)
    | some scene =>
      if h : s.currentActionIndex < scene.actions.length then
        let s1 := { s with isProcessing := true }
        let r := processAction fuel s1 (scene.actions[s.currentActionIndex])
        if r.2 then r else ({ r.1 with isProcessing := false }, false)
      else (s, false)

/-- `processAction`: show/hide/setImage apply their effect and immediately
advance via `nextAction`, guarded by JS truthiness of the required fields
(a missing `character`, or for setImage an unset/empty `image`, or for
dialogue an unset/empty `text`, falls through the switch as a silent
no-op without advancing). -/
def processAction (fuel : Nat) (s : RState) (a : SceneAction) : RState × Bool :=
  match a.type with
  | .show' =>
    match a.character with
    | some c => nextAction fuel (showCharacter s c)
    | none => (s, false)
  | .hide =>
    match a.character with
    | some c => nextAction fuel (hideCharacter s c)
    | none => (s, false)
  | .setImage =>
    match a.character, a.image with
    | some c, some img =>
      if img = "" then (s, false)
      else nextAction fuel (setCharacterImage s c img)
    | _, _ => (s, false)
  | .dialogue =>
    match a.character, a.text with
    | some c, some text =>
      if text = "" then (s, false)
      else displayDialogue s c text.data a.options
    | _, _ => (s, false)

/-- `renderCurrentScene`: resets the cursor, applies the scene background
(truthiness: an unset or empty background is skipped), clears the previous
scene's character elements, and processes actions from the start. -/
def renderCurrentScene (fuel : Nat) (s : RState) : RState × Bool :=
  match fuel with
  | 0 => (s, false)
  | fuel + 1 =>
    match s.engine.currentSceneData with
    | none => (s, false)
    | some scene =>
      let s1 := { s with currentActionIndex := 0 }
      let s2 :=
        match scene.options.background with
        | some bg =>
          if bg = "" then s1
          else { s1 with background := some (resolveAssetPath s1.options bg) }
        | none => s1
      let s3 := { s2 with charElements := [], visibleChars := [], charImages := [] }
      processActions fuel s3

end

/-- Cancelling the animation held in `currentAnimation`: the promise's
`onCancel` forces the visual end state (typewriter: element text jumps to
the full text; fade: opacity snaps to 1).  Returns the renderer state and
the promise state after `cancel()`. -/
def animCancel (a : Anim) (s : RState) : RState × Anim :=
  match a with
  | .typewriter full cp =>
    if cp.cancelled then (s, a)
    else ({ s with dialogueText := full }, .typewriter full (cp.cancel none))
  | .fade cp =>
    if cp.cancelled then (s, a)
    else ({ s with dialogueOpacity := "1" }, .fade (cp.cancel none))

/-- The dialogue-box click handler: with an animation in flight, cancel it,
clear the handle, clear `isProcessing`, and return without advancing (the
second component reports the cancelled animation); else, when not
processing, advance via `nextAction`; else drop the click. -/
def click (fuel : Nat) (s : RState) : RState × Option Anim :=
  match s.currentAnimation with
  | some anim =>
    let r := animCancel anim s
    ({ r.1 with currentAnimation := none, isProcessing := false }, some r.2)
  | none =>
    if s.isProcessing then (s, none)
    else ((nextAction fuel s).1, none)

/-- The claim-side show action: the override is used when present, else the
character's stored value, else the field stays undefined. -/
def claimShowAction (c : CharId) (ch : Character) (options : Option ShowOptions) :
    SceneAction :=
  { type := .show'
    character := some c
    position :=
      match options with
      | some o => (match o.position with | some p => some p | none => ch.position)
      | none => ch.position
    size :=
      match options with
      | some o => (match o.size with | some v => some v | none => ch.size)
      | none => ch.size }

/-- Concrete fixture: Alice (handle 0) is bound to scene 0, Bob (handle 1)
is unattached; two scenes "s1", "s2". -/
def exWorld : World :=
  { chars := [{ name := "Alice", currentScene := some 0 }, { name := "Bob" }]
    scenes := [{ id := "s1" }, { id := "s2" }] }

/-- Concrete fixture: the script holding both scenes of `exWorld`. -/
def exScript : Script :=
  { _scenes := [0, 1], sceneMap := [("s1", 0), ("s2", 1)] }

/-- Concrete fixture: a headless engine over `exWorld`/`exScript` started at
"s1" (the state `VNEngine.create exWorld exScript "s1" false` yields). -/
def exEngineH : Engine :=
  { world := exWorld
    _script := exScript
    _stateManager := StateManager.create (some ("s1"))
    listeners := []
    _renderer := none
    emitted := [EngineEvent.sceneChange ("s1")] }

/-- Concrete fixture for the playback claims: Alice bound to the single
scene "s1" whose log is two typewriter dialogues. -/
def c1World : World :=
  { chars := [{ name := "Alice", currentScene := some 0 }]
    scenes := [{ id := "s1"
                 actions :=
                   [{ type := .dialogue, character := some 0, text := some ("Hi")
                      options := some { effect := some .typewriter } },
                    { type := .dialogue, character := some 0, text := some ("Yo")
                      options := some { effect := some .typewriter } }] }] }

/-- Script for `c1World`. -/
def c1Script : Script :=
  { _scenes := [0], sceneMap := [("s1", 0)] }

/-- Renderer state mid-playback: the first dialogue's typewriter effect is
in flight (`isProcessing` set by `processActions`, the awaited animation in
`currentAnimation`). -/
def c1State : RState :=
  { engine :=
      { world := c1World
        _script := c1Script
        _stateManager := StateManager.create (some ("s1"))
        listeners := [(EngineEventType.sceneChange, [rendererListener])]
        _renderer := some 0
        emitted := [EngineEvent.sceneChange ("s1")] }
    currentActionIndex := 0
    isProcessing := true
    currentAnimation := some (.typewriter ("Hi").data {})
    speakerName := ("Alice").data
    dialogueText := [] }

/-- Fixture for the `next()` truthiness counterexample: a scene whose id is
the empty string, followed by scene "a". -/
def c3World : World :=
  { chars := [], scenes := [{ id := "" }, { id := "a" }] }

/-- Script of `c3World`. -/
def c3Script : Script :=
  { _scenes := [0, 1], sceneMap := [("", 0), ("a", 1)] }

/-- Engine whose current scene id is the empty string (reachable via
`jumpTo("")`, since a scene with id `""` is legal). -/
def c3Engine : Engine :=
  { world := c3World
    _script := c3Script
    _stateManager := { variables' := [], _currentSceneId := some (""), sceneHistory := [] }
    listeners := []
    _renderer := none
    emitted := [] }

/-- Mid-run typewriter state over `text`: the first `i` characters are
revealed, the interval is live, nothing has settled. -/
def twPartial (text : List Char) (i : Nat) : TwState :=
  { displayed := text.take i
    index := i
    intervalActive := true
    onCompleteRuns := 0
    cp := {} }

/-! ## Theorems -/

/-- C2 counterexample: with a previous id of `""` — a non-null string — an
assignment pushes nothing onto `sceneHistory`, refuting "the previous id is
pushed exactly when that previous id was non-null": the guard in the source
is JS truthiness, which also drops the empty string. -/
theorem currentSceneId_push_counterexample :
    (StateManager.setCurrentSceneId
        { variables' := [], _currentSceneId := some (""), sceneHistory := [] }
        (some ("x"))).sceneHistory = []
    ∧ (StateManager.setCurrentSceneId
        { variables' := [], _currentSceneId := some (""), sceneHistory := [] }
        (some ("x"))).sceneHistory ≠ [""]
    ∧ (some ("") : Option String) ≠ none := by
  refine ⟨rfl, ?_, ?_⟩ <;> decide

/-- C2 (amended): the `currentSceneId` setter always stores the new id and
leaves variables alone; the previous id is pushed onto `sceneHistory`
exactly when it was non-null and non-empty — independent of whether the new
id equals it — while an assignment from a null (or empty) previous id
leaves `sceneHistory` unchanged. -/
theorem currentSceneId_setter_semantics (st : GameState) (sceneId : Option String) :
    ((StateManager.setCurrentSceneId st sceneId)._currentSceneId = sceneId)
    ∧ ((StateManager.setCurrentSceneId st sceneId).variables' = st.variables')
    ∧ (∀ prev, st._currentSceneId = some prev → prev ≠ "" →
        (StateManager.setCurrentSceneId st sceneId).sceneHistory
          = st.sceneHistory ++ [prev])
    ∧ (st._currentSceneId = none →
        (StateManager.setCurrentSceneId st sceneId).sceneHistory = st.sceneHistory)
    ∧ (st._currentSceneId = some ("") →
        (StateManager.setCurrentSceneId st sceneId).sceneHistory = st.sceneHistory) := by
  unfold StateManager.setCurrentSceneId
  refine ⟨rfl, rfl, ?_, ?_, ?_⟩
  · intro prev hprev hne
    simp [hprev, hne]
  · intro h
    simp [h]
  · intro h
    simp [h]

/-- Witness for C2: assigning "a" again over a previous id "a" pushes "a"
(the push does not depend on the new id differing). -/
theorem currentSceneId_setter_semantics_witness :
    (StateManager.setCurrentSceneId
        { variables' := [], _currentSceneId := some ("a"), sceneHistory := [] }
        (some ("a"))).sceneHistory = ["a"] :=
  (currentSceneId_setter_semantics
      { variables' := [], _currentSceneId := some ("a"), sceneHistory := [] }
      (some ("a"))).2.2.1 ("a") rfl (by decide)

/-- C7: `Script.addScene` on a colliding id throws an error containing that
id and leaves the script exactly as it was (the check precedes both
mutations, so a catching caller observes no partial mutation); on a fresh
id the scene is appended both to the ordered list and to the id index. -/
theorem addScene_duplicate_rejected (w : World) (s : Script) (r : SceneRef)
    (sc : Scene) (hr : w.getScene r = some sc) :
    ((assocGet s.sceneMap sc.id).isSome →
      Script.addScene w s r
        = .error ("Scene with id \"" ++ sc.id ++ "\" already exists")
      ∧ Script.addSceneCaught w s r
        = (s, some ("Scene with id \"" ++ sc.id ++ "\" already exists"))
      ∧ sc.id.data <:+: ("Scene with id \"" ++ sc.id ++ "\" already exists").data)
    ∧ ((assocGet s.sceneMap sc.id).isSome = false →
      Script.addScene w s r
        = .ok { _scenes := s._scenes ++ [r], sceneMap := assocSet s.sceneMap sc.id r }) := by
  constructor
  · intro hdup
    refine ⟨?_, ?_, ?_⟩
    · unfold Script.addScene
      rw [hr]
      simp [hdup]
    · unfold Script.addSceneCaught Script.addScene
      rw [hr]
      simp [hdup]
    · refine ⟨("Scene with id \"").data, ("\" already exists").data, ?_⟩
      simp [String.data_append]
  · intro hfresh
    unfold Script.addScene
    rw [hr]
    simp [hfresh]

/-- An index that dereferences is in bounds. -/
theorem lt_of_get?_eq_some {α : Type} {l : List α} {n : Nat} {a : α}
    (h : l.get? n = some a) : n < l.length := by
  obtain ⟨hlt, -⟩ := List.get?_eq_some.mp h
  exact hlt

/-- Reading back a scene slot just written. -/
theorem World.getScene_setScene_self (w : World) (r : SceneRef) (sc : Scene)
    (h : r < w.scenes.length) : (w.setScene r sc).getScene r = some sc :=
  List.get?_set_eq_of_lt _ h

/-- Reading back a character slot just written. -/
theorem World.getChar_setChar_self (w : World) (c : CharId) (ch : Character)
    (h : c < w.chars.length) : (w.setChar c ch).getChar c = some ch :=
  List.get?_set_eq_of_lt _ h

/-- Writing a character does not move scenes. -/
theorem World.getScene_setChar (w : World) (c : CharId) (ch : Character)
    (r : SceneRef) : (w.setChar c ch).getScene r = w.getScene r := rfl

/-- Writing a scene does not move characters. -/
theorem World.getChar_setScene (w : World) (r : SceneRef) (sc : Scene)
    (c : CharId) : (w.setScene r sc).getChar c = w.getChar c := rfl

/-- Appending an action does not move characters. -/
theorem World.getChar_addAction (w : World) (r : SceneRef) (a : SceneAction)
    (c : CharId) : (w.addAction r a).getChar c = w.getChar c := by
  unfold World.addAction
  cases w.getScene r <;> rfl

/-- Appending an action leaves other lists' lengths alone. -/
theorem World.scenes_setChar (w : World) (c : CharId) (ch : Character) :
    (w.setChar c ch).scenes = w.scenes := rfl

/-- `addAction` through a resolvable handle is a scene overwrite. -/
theorem World.addAction_eq (w : World) (r : SceneRef) (sc : Scene)
    (a : SceneAction) (h : w.getScene r = some sc) :
    w.addAction r a = w.setScene r (sc.addAction a) := by
  unfold World.addAction
  rw [h]

/-- Witness for C7: adding scene 0 ("s1") to a script already indexing
"s1" is rejected with the id in the message and the script unchanged;
adding scene 1 ("s2") appends to both structures. -/
theorem addScene_duplicate_rejected_witness :
    Script.addSceneCaught exWorld { _scenes := [0], sceneMap := [("s1", 0)] } 0
      = ({ _scenes := [0], sceneMap := [("s1", 0)] },
         some ("Scene with id \"" ++ "s1" ++ "\" already exists"))
    ∧ Script.addScene exWorld { _scenes := [0], sceneMap := [("s1", 0)] } 1
      = .ok { _scenes := [0, 1], sceneMap := [("s1", 0), ("s2", 1)] } :=
  ⟨((addScene_duplicate_rejected exWorld
        { _scenes := [0], sceneMap := [("s1", 0)] } 0 { id := "s1" } rfl).1
      (by decide)).2.1,
   (addScene_duplicate_rejected exWorld
        { _scenes := [0], sceneMap := [("s1", 0)] } 1 { id := "s2" } rfl).2
      (by decide)⟩

/-- C8: with no current-scene binding, `say`, `show` and `hide` each throw
synchronously an error whose message contains the character's name, and a
catching caller observes every scene's action log untouched (the world is
returned unchanged). -/
theorem unattached_character_errors (w : World) (c : CharId) (ch : Character)
    (hc : w.getChar c = some ch) (hs : ch.currentScene = none)
    (text : String) (dopts : Option DialogueOptions) (sopts : Option ShowOptions) :
    (runCaught w (Character.say w c text dopts)
      = (w, some ("Character \"" ++ ch.name
            ++ "\" must be added to a scene before speaking")))
    ∧ (runCaught w (Character.show' w c sopts)
      = (w, some ("Character \"" ++ ch.name
            ++ "\" must be added to a scene before showing")))
    ∧ (runCaught w (Character.hide w c)
      = (w, some ("Character \"" ++ ch.name
            ++ "\" must be added to a scene before hiding")))
    ∧ ch.name.data <:+:
        ("Character \"" ++ ch.name ++ "\" must be added to a scene before speaking").data
    ∧ ch.name.data <:+:
        ("Character \"" ++ ch.name ++ "\" must be added to a scene before showing").data
    ∧ ch.name.data <:+:
        ("Character \"" ++ ch.name ++ "\" must be added to a scene before hiding").data := by
  refine ⟨?_, ?_, ?_, ?_, ?_, ?_⟩
  · simp [runCaught, Character.say, hc, hs]
  · simp [runCaught, Character.show', hc, hs]
  · simp [runCaught, Character.hide, hc, hs]
  · exact ⟨("Character \"").data, ("\" must be added to a scene before speaking").data,
      by simp [String.data_append]⟩
  · exact ⟨("Character \"").data, ("\" must be added to a scene before showing").data,
      by simp [String.data_append]⟩
  · exact ⟨("Character \"").data, ("\" must be added to a scene before hiding").data,
      by simp [String.data_append]⟩

/-- Witness for C8: Bob (handle 1 of `exWorld`, never added to a scene)
fails to speak, and the world is unchanged. -/
theorem unattached_character_errors_witness :
    runCaught exWorld (Character.say exWorld 1 ("hi") none)
      = (exWorld,
         some ("Character \"" ++ "Bob" ++ "\" must be added to a scene before speaking")) :=
  (unattached_character_errors exWorld 1 { name := "Bob" } rfl rfl ("hi") none none).1

/-- C9: a scene-bound `Character.show` appends exactly one show action whose
position and size fields follow "override when present, else stored, else
undefined"; `Scene.add` registers the character in the membership set,
binds the character's current scene to this scene, and appends the same
show action. -/
theorem show_fallback_and_add (w : World) (c : CharId) (ch : Character)
    (r : SceneRef) (sc : Scene)
    (hc : w.getChar c = some ch) (hr : w.getScene r = some sc)
    (options : Option ShowOptions) :
    (ch.currentScene = some r →
      Character.show' w c options
        = .ok (w.setScene r
            { sc with actions := sc.actions ++ [claimShowAction c ch options] }))
    ∧ ((Scene.add w r c options).getScene r
        = some { sc with
            characters :=
              if c ∈ sc.characters then sc.characters else sc.characters ++ [c]
            actions := sc.actions ++ [claimShowAction c ch options] })
    ∧ ((Scene.add w r c options).getChar c
        = some { ch with currentScene := some r }) := by
  have hltr : r < w.scenes.length := lt_of_get?_eq_some hr
  have hltc : c < w.chars.length := lt_of_get?_eq_some hc
  have hact :
      ({ type := .show'
         character := some c
         position := (options.bind ShowOptions.position) <|> ch.position
         size := (options.bind ShowOptions.size) <|> ch.size } : SceneAction)
        = claimShowAction c ch options := by
    unfold claimShowAction
    cases options with
    | none => rfl
    | some o => cases hp : o.position <;> cases hq : o.size <;> simp [hp, hq]
  have hr' : w.scenes.get? r = some sc := hr
  have hc' : w.chars.get? c = some ch := hc
  have hadd : Scene.add w r c options
      = ((w.setScene r
            { sc with characters :=
                if c ∈ sc.characters then sc.characters else sc.characters ++ [c] }
          ).setChar c { ch with currentScene := some r }).addAction r
          { type := .show'
            character := some c
            position := (options.bind ShowOptions.position) <|> ch.position
            size := (options.bind ShowOptions.size) <|> ch.size } := by
    simp only [Scene.add, World.getScene, World.getChar, hr', hc']
  have hmid : (((w.setScene r
        { sc with characters :=
            if c ∈ sc.characters then sc.characters else sc.characters ++ [c] }
      ).setChar c { ch with currentScene := some r })).getScene r
      = some { sc with characters :=
          if c ∈ sc.characters then sc.characters else sc.characters ++ [c] } := by
    rw [World.getScene_setChar, World.getScene_setScene_self _ _ _ hltr]
  refine ⟨?_, ?_, ?_⟩
  · intro hcs
    simp only [Character.show', hc, hcs, World.addAction, hr, Scene.addAction, hact]
  · rw [hadd, World.addAction_eq _ _ _ _ hmid,
      World.getScene_setScene_self _ _ _
        (by simp [World.setChar, World.setScene, hltr]), ← hact]
    rfl
  · rw [hadd, World.addAction_eq _ _ _ _ hmid, World.getChar_setScene]
    exact World.getChar_setChar_self _ _ _ hltc

/-- Witness for C9: `scene.add(alice)` on `exWorld` (no overrides) appends
one show action falling back to Alice's stored (absent) position and size,
registers her, and binds her current scene. -/
theorem show_fallback_and_add_witness :
    (Scene.add exWorld 0 0 none).getScene 0
      = some { id := "s1"
               characters := [0]
               actions := [{ type := .show', character := some 0 }] }
    ∧ (Scene.add exWorld 0 0 none).getChar 0
      = some { name := "Alice", currentScene := some 0 } := by
  have h := show_fallback_and_add exWorld 0
    { name := "Alice", currentScene := some 0 } 0 { id := "s1" } rfl rfl none
  exact ⟨h.2.1, h.2.2⟩

/-- C4: the `image` setter always updates the stored image; when the
character is bound to a scene and the value is defined it appends exactly
one `setImage` action carrying the character and the new URL to that
scene's log; assigning undefined — or being unbound — appends nothing
anywhere. -/
theorem image_setter_semantics (w : World) (c : CharId) (ch : Character)
    (value : Option String) (hc : w.getChar c = some ch) :
    ((Character.setImage w c value).getChar c = some { ch with image := value })
    ∧ (∀ r sc v, ch.currentScene = some r → value = some v → w.getScene r = some sc →
        (Character.setImage w c value).getScene r
          = some { sc with actions := sc.actions
              ++ [{ type := .setImage, character := some c, image := some v }] })
    ∧ (value = none → (Character.setImage w c value).scenes = w.scenes)
    ∧ (ch.currentScene = none → (Character.setImage w c value).scenes = w.scenes) := by
  have hltc : c < w.chars.length := lt_of_get?_eq_some hc
  have hc' : w.chars.get? c = some ch := hc
  refine ⟨?_, ?_, ?_, ?_⟩
  · cases hcs : ch.currentScene with
    | none =>
      have h1 : Character.setImage w c value = w.setChar c { ch with image := value } := by
        cases value <;> simp only [Character.setImage, World.getChar, hc', hcs]
      rw [h1, World.getChar_setChar_self _ _ _ hltc, hcs]
    | some r2 =>
      cases value with
      | none =>
        have h1 : Character.setImage w c none = w.setChar c { ch with image := none } := by
          simp only [Character.setImage, World.getChar, hc', hcs]
        rw [h1, World.getChar_setChar_self _ _ _ hltc, hcs]
      | some v =>
        have h1 : Character.setImage w c (some v)
            = (w.setChar c { ch with image := some v }).addAction r2
                { type := .setImage, character := some c, image := some v } := by
          simp only [Character.setImage, World.getChar, hc', hcs]
        rw [h1, World.getChar_addAction, World.getChar_setChar_self _ _ _ hltc, hcs]
  · intro r sc v hcs hv hr
    subst hv
    have h1 : Character.setImage w c (some v)
        = (w.setChar c { ch with image := some v }).addAction r
            { type := .setImage, character := some c, image := some v } := by
      simp only [Character.setImage, World.getChar, hc', hcs]
    rw [h1, World.addAction_eq _ _ sc _ (by rw [World.getScene_setChar]; exact hr)]
    exact World.getScene_setScene_self _ _ _ (lt_of_get?_eq_some hr)
  · intro hv
    subst hv
    cases hcs : ch.currentScene with
    | none =>
      have h1 : Character.setImage w c none = w.setChar c { ch with image := none } := by
        simp only [Character.setImage, World.getChar, hc', hcs]
      rw [h1, World.scenes_setChar]
    | some r2 =>
      have h1 : Character.setImage w c none = w.setChar c { ch with image := none } := by
        simp only [Character.setImage, World.getChar, hc', hcs]
      rw [h1, World.scenes_setChar]
  · intro hcs
    have h1 : Character.setImage w c value = w.setChar c { ch with image := value } := by
      cases value <;> simp only [Character.setImage, World.getChar, hc', hcs]
    rw [h1, World.scenes_setChar]

/-- Once cancelled, a further `cancel()` is the identity. -/
theorem CPState.cancel_of_cancelled {α : Type} (s : CPState α) (v : Option α)
    (h : s.cancelled = true) : s.cancel v = s := by
  simp [CPState.cancel, h]

/-- Folding any further cancels over a cancelled promise does nothing. -/
theorem CPState.foldl_cancel_of_cancelled {α : Type} (s : CPState α)
    (h : s.cancelled = true) (l : List (Option α)) :
    l.foldl CPState.cancel s = s := by
  induction l with
  | nil => rfl
  | cons v vs ih =>
    rw [List.foldl_cons, CPState.cancel_of_cancelled s v h]
    exact ih

/-- C5: from a pending promise, any nonempty sequence of `cancel()` calls
runs the `onCancel` cleanup exactly once (every call after the first is a
no-op) and leaves the promise resolved with the first call's value
(undefined for the void case) — it is never rejected. -/
theorem cancel_idempotent_never_rejects (α : Type) (s : CPState α)
    (h1 : s.cancelled = false) (h2 : s.settled = none) (h3 : s.cleanupRuns = 0)
    (v : Option α) (rest : List (Option α)) :
    (rest.foldl CPState.cancel (s.cancel v)) = s.cancel v
    ∧ (rest.foldl CPState.cancel (s.cancel v)).cleanupRuns = 1
    ∧ (rest.foldl CPState.cancel (s.cancel v)).settled
        = some (.resolved v)
    ∧ (∀ reason, (rest.foldl CPState.cancel (s.cancel v)).settled
        ≠ some (.rejected reason)) := by
  have hc : s.cancel v
      = { cancelled := true, cleanupRuns := 1, settled := some (.resolved v) } := by
    simp [CPState.cancel, CPState.settle, h1, h2, h3]
  have hfold : rest.foldl CPState.cancel (s.cancel v) = s.cancel v :=
    CPState.foldl_cancel_of_cancelled _ (by rw [hc]) rest
  refine ⟨hfold, ?_, ?_, ?_⟩
  · rw [hfold, hc]
  · rw [hfold, hc]
  · intro reason
    rw [hfold, hc]
    simp

/-- Witness for C5: a fresh void promise cancelled three times. -/
theorem cancel_idempotent_never_rejects_witness :
    (([some (), none]).foldl CPState.cancel
        (({} : CPState Unit).cancel none)).cleanupRuns = 1
    ∧ (([some (), none]).foldl CPState.cancel
        (({} : CPState Unit).cancel none)).settled
      = some (.resolved none) :=
  ⟨(cancel_idempotent_never_rejects Unit {} rfl rfl rfl none [some (), none]).2.1,
   (cancel_idempotent_never_rejects Unit {} rfl rfl rfl none [some (), none]).2.2.1⟩

/-- One tick strictly below the text length reveals the next character. -/
theorem twPartial_tick (text : List Char) (i : Nat) (h : i < text.length) :
    TwState.tick text (twPartial text i) = twPartial text (i + 1) := by
  have hd : text.getD i ' ' = text[i] := by
    rw [List.getD_eq_getElem?_getD, List.getElem?_eq_getElem h]
    rfl
  have ht : text.take (i + 1) = text.take i ++ [text[i]] := by
    rw [List.take_succ, List.getElem?_eq_getElem h]
    rfl
  show (if (i < text.length) then
      ({ displayed := text.take i ++ [text.getD i ' '], index := i + 1
         intervalActive := true, onCompleteRuns := 0, cp := {} } : TwState)
    else
      ({ displayed := text.take i, index := i, intervalActive := false
         onCompleteRuns := 0 + 1
         cp := CPState.settle {} (.resolved none) } : TwState))
    = twPartial text (i + 1)
  rw [if_pos h, hd]
  unfold twPartial
  rw [ht]

/-- Ticks walk the typewriter along the partial states. -/
theorem twPartial_run_ticks (text : List Char) (n : Nat) :
    ∀ i : Nat, i + n ≤ text.length →
      TwState.run text (twPartial text i) (List.replicate n .tick)
        = twPartial text (i + n) := by
  induction n with
  | zero =>
    intro i h
    simp [TwState.run]
  | succ m ih =>
    intro i h
    have h1 : i < text.length := by omega
    have hstep : TwState.step text (twPartial text i) .tick = twPartial text (i + 1) :=
      twPartial_tick text i h1
    unfold TwState.run
    rw [List.replicate_succ, List.foldl_cons, hstep]
    have := ih (i + 1) (by omega)
    unfold TwState.run at this
    rw [this]
    congr 1
    omega

/-- Event sequences compose. -/
theorem TwState.run_append (text : List Char) (s : TwState)
    (l1 l2 : List TwState.Event) :
    TwState.run text s (l1 ++ l2) = TwState.run text (TwState.run text s l1) l2 := by
  simp [TwState.run]

/-- C6 counterexample: run the typewriter over "Hi" to natural completion
(two reveal ticks and the resolving tick): the promise is resolved and the
cleanup callback never ran; a `cancel()` arriving after that completion is
not a no-op — it runs the cleanup callback once more (and `onComplete` a
second time) — refuting "whichever occurs first wins (the later one has no
effect)". -/
theorem typewriter_cancel_after_completion_counterexample :
    (TwState.run (['H', 'i']) {} [.tick, .tick, .tick]).cp.settled
      = some (.resolved none)
    ∧ (TwState.run (['H', 'i']) {} [.tick, .tick, .tick]).cp.cleanupRuns = 0
    ∧ TwState.cancel (['H', 'i'])
        (TwState.run (['H', 'i']) {} [.tick, .tick, .tick])
      ≠ TwState.run (['H', 'i']) {} [.tick, .tick, .tick]
    ∧ (TwState.cancel (['H', 'i'])
        (TwState.run (['H', 'i']) {} [.tick, .tick, .tick])).cp.cleanupRuns = 1 := by
  decide

/-- C6 (amended): natural completion (length + 1 interval ticks) reveals the
whole text and resolves the promise without ever invoking the cleanup
callback; after a cancellation, later ticks and later cancels have no
effect; after natural completion a later `cancel()` cannot change the
settled outcome (a promise settles once), but it does invoke the cleanup
callback once (the cancelled flag, not completion, guards `cancel`). -/
theorem typewriter_completion_and_race (text : List Char) :
    (TwState.run text {} (List.replicate (text.length + 1) .tick)
      = { displayed := text, index := text.length, intervalActive := false,
          onCompleteRuns := 1,
          cp := { cancelled := false, cleanupRuns := 0,
                  settled := some (.resolved none) } })
    ∧ (∀ s : TwState, TwState.tick text (TwState.cancel text s)
        = TwState.cancel text s)
    ∧ (∀ s : TwState, TwState.cancel text (TwState.cancel text s)
        = TwState.cancel text s)
    ∧ (∀ s : TwState, s.cp.settled.isSome →
        (TwState.cancel text s).cp.settled = s.cp.settled)
    ∧ (∀ s : TwState, s.cp.cancelled = false →
        (TwState.cancel text s).cp.cleanupRuns = s.cp.cleanupRuns + 1) := by
  refine ⟨?_, ?_, ?_, ?_, ?_⟩
  · have hrun : TwState.run text {} (List.replicate text.length .tick)
        = twPartial text text.length := by
      have h0 : ({} : TwState) = twPartial text 0 := rfl
      rw [h0]
      simpa using twPartial_run_ticks text text.length 0 (by omega)
    rw [List.replicate_succ', TwState.run_append, hrun]
    show TwState.tick text (twPartial text text.length) = _
    unfold TwState.tick twPartial
    simp [CPState.settle, List.take_length]
  · intro s
    cases hc : s.cp.cancelled with
    | true =>
      cases hi : s.intervalActive <;> simp [TwState.cancel, TwState.tick, hc, hi]
    | false =>
      simp [TwState.cancel, TwState.tick, hc]
  · intro s
    cases hc : s.cp.cancelled with
    | true => simp [TwState.cancel, hc]
    | false =>
      cases hs : s.cp.settled <;>
        simp [TwState.cancel, CPState.cancel, CPState.settle, hc, hs]
  · intro s hsome
    cases hc : s.cp.cancelled with
    | true => simp [TwState.cancel, hc]
    | false =>
      obtain ⟨o, ho⟩ := Option.isSome_iff_exists.mp hsome
      simp [TwState.cancel, CPState.cancel, CPState.settle, hc, ho]
  · intro s hc
    cases hs : s.cp.settled <;>
      simp [TwState.cancel, CPState.cancel, CPState.settle, hc, hs]

/-- Witness for C6 over "Hi": completion leaves the cleanup count at 0 and
resolves; cancelling an in-flight fresh run invokes the cleanup; cancelling
after completion cannot change the settled outcome. -/
theorem typewriter_completion_and_race_witness :
    TwState.run (['H', 'i']) {} (List.replicate 3 .tick)
      = { displayed := ['H', 'i'], index := 2, intervalActive := false,
          onCompleteRuns := 1,
          cp := { cancelled := false, cleanupRuns := 0,
                  settled := some (.resolved none) } }
    ∧ (TwState.cancel (['H', 'i']) {}).cp.cleanupRuns = 1
    ∧ (TwState.cancel (['H', 'i'])
         (TwState.run (['H', 'i']) {} (List.replicate 3 .tick))).cp.settled
        = some (.resolved none) := by
  refine ⟨?_, ?_, ?_⟩
  · exact (typewriter_completion_and_race (['H', 'i'])).1
  · exact (typewriter_completion_and_race (['H', 'i'])).2.2.2.2 {} rfl
  · have h := (typewriter_completion_and_race (['H', 'i'])).2.2.2.1
      (TwState.run (['H', 'i']) {} (List.replicate 3 .tick)) (by decide)
    rw [h]
    decide

/-- Witness for C4: setting Alice's image to "alice2.png" stores it and
appends one setImage action to scene "s1". -/
theorem image_setter_semantics_witness :
    ((Character.setImage exWorld 0 (some ("alice2.png"))).getChar 0
      = some { name := "Alice", image := some ("alice2.png"), currentScene := some 0 })
    ∧ ((Character.setImage exWorld 0 (some ("alice2.png"))).getScene 0
      = some { id := "s1"
               actions := [{ type := .setImage, character := some 0
                             image := some ("alice2.png") }] }) := by
  have h := image_setter_semantics exWorld 0
    { name := "Alice", currentScene := some 0 } (some ("alice2.png")) rfl
  exact ⟨h.1, h.2.1 0 { id := "s1" } ("alice2.png") rfl rfl rfl⟩

/-- C10: constructed without a DOM (`document` undefined), a valid
start-scene id yields an engine whose renderer is null with the same
renderer-independent core (world, script, state manager, emission log) as
the browser-built engine; and `jumpTo`, `next`, `setVariable`,
`getVariable`, `on` and `off` neither read nor write the renderer — each
performs identical state transitions and event emissions whatever the
renderer field holds, and listener (de)registration never touches the
core. -/
theorem headless_engine_ops (w : World) (script : Script) (sid : String) :
    ((script.getScene sid).isSome →
      (VNEngine.create w script sid false).map (fun e => e._renderer) = .ok none
      ∧ (VNEngine.create w script sid false).map Engine.core
          = (VNEngine.create w script sid true).map Engine.core)
    ∧ (∀ e r sid2, Engine.jumpTo { e with _renderer := r } sid2
        = (Engine.jumpTo e sid2).map (fun e2 => { e2 with _renderer := r }))
    ∧ (∀ e r, Engine.next { e with _renderer := r }
        = (Engine.next e).map (fun p => ({ p.1 with _renderer := r }, p.2)))
    ∧ (∀ e r key value, Engine.setVariable { e with _renderer := r } key value
        = { Engine.setVariable e key value with _renderer := r })
    ∧ (∀ e r key, Engine.getVariable { e with _renderer := r } key
        = Engine.getVariable e key)
    ∧ (∀ e r t l, Engine.on' { e with _renderer := r } t l
          = { Engine.on' e t l with _renderer := r }
        ∧ Engine.off { e with _renderer := r } t l
          = { Engine.off e t l with _renderer := r })
    ∧ (∀ e t l, Engine.core (Engine.on' e t l) = Engine.core e
        ∧ Engine.core (Engine.off e t l) = Engine.core e) := by
  have hj : ∀ (e : Engine) (r : Option Nat) (sid2 : String),
      Engine.jumpTo { e with _renderer := r } sid2
        = (Engine.jumpTo e sid2).map (fun e2 => { e2 with _renderer := r }) := by
    intro e r sid2
    unfold Engine.jumpTo
    cases hsc : e._script.getScene sid2 <;> simp [hsc, Engine.emitEvent, Except.map]
  refine ⟨?_, hj, ?_, ?_, ?_, ?_, ?_⟩
  · intro h
    obtain ⟨rr, hrr⟩ := Option.isSome_iff_exists.mp h
    constructor
    · simp [VNEngine.create, hrr, Engine.emitEvent, Except.map]
    · simp [VNEngine.create, hrr, Engine.emitEvent, Engine.on', Engine.core,
        assocGet, assocSet, Except.map]
  · intro e r
    unfold Engine.next
    cases hcid : e._stateManager._currentSceneId with
    | none => rfl
    | some cid =>
      by_cases hc : cid = ""
      · simp [hc, Except.map]
      · simp only [hc, if_false, ite_false]
        by_cases hidx : Script.getSceneIndex e.world e._script cid = -1
        · simp [hidx, Except.map]
        · simp only [hidx, if_false, ite_false]
          cases hby : e._script.getSceneByIndex
              ((Script.getSceneIndex e.world e._script cid).toNat + 1) with
          | none => simp [hby, Except.map]
          | some nextRef =>
            simp only [hby]
            cases hws : e.world.getScene nextRef with
            | none => simp [hws, Except.map]
            | some ns =>
              simp only [hws]
              rw [hj]
              cases hjm : Engine.jumpTo e ns.id <;> simp [hjm, Except.map]
  · intro e r key value
    rfl
  · intro e r key
    rfl
  · intro e r t l
    constructor
    · unfold Engine.on'
      cases hg : assocGet e.listeners t <;> simp [hg]
    · unfold Engine.off
      cases hg : assocGet e.listeners t <;> simp [hg]
  · intro e t l
    constructor
    · unfold Engine.on'
      cases hg : assocGet e.listeners t <;> simp [hg, Engine.core]
    · unfold Engine.off
      cases hg : assocGet e.listeners t <;> simp [hg, Engine.core]

/-- Witness for C10: over `exWorld`/`exScript` with start "s1", headless
construction succeeds with a null renderer and the same core as the
browser construction. -/
theorem headless_engine_ops_witness :
    (VNEngine.create exWorld exScript ("s1") false).map (fun e => e._renderer)
      = .ok none
    ∧ (VNEngine.create exWorld exScript ("s1") false).map Engine.core
      = (VNEngine.create exWorld exScript ("s1") true).map Engine.core :=
  (headless_engine_ops exWorld exScript ("s1")).1 (by decide)

/-- C3 counterexample: with current scene id `""` — a real scene of the
script, found at index 0, with a scene ("a") at index 1 — `next()` still
returns false and changes nothing, because `if (!currentSceneId)` is a JS
truthiness test that treats the empty-string id like null; the claim's
"otherwise it jumps … and returns true" fails at this input. -/
theorem next_empty_id_counterexample :
    Engine.next c3Engine = .ok (c3Engine, false)
    ∧ c3Engine._stateManager._currentSceneId = some ("")
    ∧ Script.getSceneIndex c3World c3Script ("") = 0
    ∧ Script.getSceneByIndex c3Script 1 = some 1
    ∧ (c3World.getScene 1).map Scene.id = some ("a") := by
  exact ⟨rfl, rfl, rfl, rfl, rfl⟩

/-- C3 (amended): `next()` returns false, changes no state and emits no
event whenever the current scene id is null **or the empty string** (JS
truthiness), the id is not found in the script, or there is no scene at
index + 1; otherwise it jumps to the scene at the next index — pushing
history and emitting `sceneChange` via `jumpTo` — and returns true. -/
theorem next_semantics (e : Engine) :
    (e._stateManager._currentSceneId = none → Engine.next e = .ok (e, false))
    ∧ (e._stateManager._currentSceneId = some ("") →
        Engine.next e = .ok (e, false))
    ∧ (∀ cid, e._stateManager._currentSceneId = some cid → cid ≠ "" →
        Script.getSceneIndex e.world e._script cid = -1 →
        Engine.next e = .ok (e, false))
    ∧ (∀ cid, e._stateManager._currentSceneId = some cid → cid ≠ "" →
        Script.getSceneIndex e.world e._script cid ≠ -1 →
        Script.getSceneByIndex e._script
          ((Script.getSceneIndex e.world e._script cid).toNat + 1) = none →
        Engine.next e = .ok (e, false))
    ∧ (∀ cid r sc, e._stateManager._currentSceneId = some cid → cid ≠ "" →
        Script.getSceneIndex e.world e._script cid ≠ -1 →
        Script.getSceneByIndex e._script
          ((Script.getSceneIndex e.world e._script cid).toNat + 1) = some r →
        e.world.getScene r = some sc →
        (e._script.getScene sc.id).isSome →
        Engine.next e
          = .ok (({ e with _stateManager :=
                StateManager.setCurrentSceneId e._stateManager (some sc.id) }
              ).emitEvent (.sceneChange sc.id), true)) := by
  refine ⟨?_, ?_, ?_, ?_, ?_⟩
  · intro h
    unfold Engine.next
    rw [h]
  · intro h
    unfold Engine.next
    rw [h]
    simp
  · intro cid hcid hne hidx
    unfold Engine.next
    rw [hcid]
    simp [hne, hidx]
  · intro cid hcid hne hidx hby
    unfold Engine.next
    rw [hcid]
    simp [hne, hidx, hby]
  · intro cid r sc hcid hne hidx hby hws hok
    unfold Engine.next
    rw [hcid]
    simp only [hne, hidx, hby, hws, if_false, ite_false]
    obtain ⟨r2, hr2⟩ := Option.isSome_iff_exists.mp hok
    unfold Engine.jumpTo
    rw [hr2]
    simp [Except.map]

/-- Witness for C3: from "s1" in `exScript`, `next()` jumps to "s2" —
history receives "s1", a second `sceneChange` is emitted — and returns
true. -/
theorem next_semantics_witness :
    Engine.next exEngineH
      = .ok ({ exEngineH with
            _stateManager :=
              { variables' := [], _currentSceneId := some ("s2")
                sceneHistory := ["s1"] }
            emitted := [EngineEvent.sceneChange ("s1"), EngineEvent.sceneChange ("s2")] },
          true) := by
  have h := (next_semantics exEngineH).2.2.2.2 ("s1") 1 { id := "s2" }
    rfl (by decide) (by decide) (by decide) rfl (by decide)
  rw [h]
  rfl

/-- C1: the dialogue-box click protocol.  While a dialogue's text effect is
in flight, the first click cancels the animation (the typewriter jumps the
dialogue text to the full content; the fade snaps opacity to 1; the
promise's cleanup runs exactly once), clears the in-flight handle, clears
the processing flag, and leaves the action index where it was.  A click
arriving while processing with no in-flight animation is dropped.  Only a
click with no animation in flight and no processing advances, via
`nextAction`: when the following action is a well-formed typewriter
dialogue it lands one index further with that dialogue's effect freshly in
flight. -/
theorem click_two_phase_protocol (fuel : Nat) (s : RState) :
    (∀ full cp, s.currentAnimation = some (.typewriter full cp) →
      cp.cancelled = false →
      click fuel s
        = ({ s with
             dialogueText := full, currentAnimation := none,
             isProcessing := false },
           some (.typewriter full (cp.cancel none))))
    ∧ (∀ cp, s.currentAnimation = some (.fade cp) → cp.cancelled = false →
      click fuel s
        = ({ s with
             dialogueOpacity := "1", currentAnimation := none,
             isProcessing := false },
           some (.fade (cp.cancel none))))
    ∧ (∀ anim, s.currentAnimation = some anim →
        (click fuel s).1.currentActionIndex = s.currentActionIndex
        ∧ (click fuel s).1.currentAnimation = none
        ∧ (click fuel s).1.isProcessing = false
        ∧ (anim.cp.cancelled = false → ∀ a2, (click fuel s).2 = some a2 →
            a2.cp.cancelled = true
            ∧ a2.cp.cleanupRuns = anim.cp.cleanupRuns + 1))
    ∧ (s.currentAnimation = none → s.isProcessing = true →
        click fuel s = (s, none))
    ∧ (s.currentAnimation = none → s.isProcessing = false →
        click fuel s = ((nextAction fuel s).1, none))
    ∧ (∀ f2 scene a c t, fuel = f2 + 2 →
        s.currentAnimation = none → s.isProcessing = false →
        s.engine.currentSceneData = some scene →
        scene.actions.get? (s.currentActionIndex + 1) = some a →
        a.type = .dialogue → a.character = some c → a.text = some t →
        t ≠ "" → a.options = some { effect := some .typewriter } →
        click fuel s
          = ({ s with
               currentActionIndex := s.currentActionIndex + 1
               isProcessing := true
               speakerName := charNameOf s.engine.world c
               dialogueText := []
               currentAnimation := some (.typewriter t.data {}) }, none)) := by
  have hbase : ∀ anim, s.currentAnimation = some anim →
      click fuel s
        = ({ (animCancel anim s).1 with
             currentAnimation := none,
             isProcessing := false },
           some (animCancel anim s).2) := by
    intro anim h
    simp [click, h]
  refine ⟨?_, ?_, ?_, ?_, ?_, ?_⟩
  · intro full cp h hcf
    rw [hbase _ h]
    simp [animCancel, hcf]
  · intro cp h hcf
    rw [hbase _ h]
    simp [animCancel, hcf]
  · intro anim h
    rw [hbase _ h]
    refine ⟨?_, rfl, rfl, ?_⟩
    · show (animCancel anim s).1.currentActionIndex = s.currentActionIndex
      cases anim with
      | typewriter full cp =>
        by_cases hc : cp.cancelled = true <;> simp [animCancel, hc]
      | fade cp =>
        by_cases hc : cp.cancelled = true <;> simp [animCancel, hc]
    · intro hcf a2 ha2
      cases anim with
      | typewriter full cp =>
        simp only [Anim.cp] at hcf
        simp only [animCancel, hcf, Bool.false_eq_true, if_false, ite_false,
          Option.some.injEq] at ha2
        subst ha2
        cases hset : cp.settled <;>
          simp [Anim.cp, CPState.cancel, CPState.settle, hcf, hset]
      | fade cp =>
        simp only [Anim.cp] at hcf
        simp only [animCancel, hcf, Bool.false_eq_true, if_false, ite_false,
          Option.some.injEq] at ha2
        subst ha2
        cases hset : cp.settled <;>
          simp [Anim.cp, CPState.cancel, CPState.settle, hcf, hset]
  · intro hna hp
    simp [click, hna, hp]
  · intro hna hp
    simp [click, hna, hp]
  · intro f2 scene a c t hfe hna hnp hsc hget hat hach hatx htne haop
    subst hfe
    have hlt : s.currentActionIndex + 1 < scene.actions.length :=
      lt_of_get?_eq_some hget
    have hnle : ¬ (scene.actions.length ≤ s.currentActionIndex + 1) := by omega
    have hgetelem : scene.actions[s.currentActionIndex + 1] = a := by
      have h2 := List.get?_eq_get hlt
      rw [hget] at h2
      exact (Option.some.injEq _ _).mp h2.symm
    simp only [click, hna, hnp, Bool.false_eq_true, if_false, ite_false]
    rw [nextAction]
    simp only [hsc, hnle, if_false, ite_false]
    rw [processActions]
    simp only [hsc]
    rw [dif_pos hlt]
    rw [processAction]
    simp only [hgetelem, hat, hach, hatx]
    simp [htne, displayDialogue, haop]

/-- Witness for C1 at `c1State` (first typewriter in flight over "Hi"):
the first click cancels and stays at index 0; the resulting rest state's
second click advances to the "Yo" dialogue at index 1 with a fresh
typewriter in flight. -/
theorem click_two_phase_protocol_witness :
    click 9 c1State
      = ({ c1State with
           dialogueText := ("Hi").data, currentAnimation := none,
           isProcessing := false },
         some (.typewriter (("Hi").data) (CPState.cancel {} none)))
    ∧ click 9 { c1State with
                dialogueText := ("Hi").data,
                currentAnimation := none, isProcessing := false }
      = ({ c1State with
           currentActionIndex := 1
           isProcessing := true
           speakerName := ("Alice").data
           dialogueText := []
           currentAnimation := some (.typewriter (("Yo").data) {}) }, none) := by
  constructor
  · exact (click_two_phase_protocol 9 c1State).1 (("Hi").data) {} rfl rfl
  · have h := (click_two_phase_protocol 9
        { c1State with
          dialogueText := ("Hi").data,
          currentAnimation := none, isProcessing := false }).2.2.2.2.2
        7 (c1World.scenes.get ⟨0, by decide⟩)
        { type := .dialogue, character := some 0, text := some ("Yo"),
          options := some { effect := some .typewriter } }
        0 ("Yo") rfl rfl rfl (by decide) (by decide) rfl rfl rfl (by decide) rfl
    rw [h]
    rfl

end VN
